import Mathlib

/-!
Verification of the `hi-low` guessing game (Python sources
`src/hi_low/evaluation.py` and `src/hi_low/game_loop.py`) against its
specification.

The embedding models Python integers as `Int`, Python exceptions as an
explicit error type, and the interactive loop as a function over the list
of integers supplied on standard input.
-/

namespace HiLow

/-- The `Evaluation` enum of `evaluation.py`: result of evaluating a guess
against a target value. -/
inductive Evaluation where
  | CORRECT
  | HIGH
  | LOW
deriving DecidableEq, Repr

/-- The `.value` attribute of each `Evaluation` enum member. -/
def Evaluation.value : Evaluation → String
  | .CORRECT => "correct"
  | .HIGH => "high"
  | .LOW => "low"

/-- Python exceptions that the modelled code can raise.
`valueError` carries the exception message; `typeError` models the
arity error raised at a call site supplying the wrong number of positional
arguments; `eofError` models `input()` on an exhausted stream. -/
inductive PyError where
  | typeError
  | valueError (msg : String)
  | eofError
deriving DecidableEq, Repr

/-- `evaluate` from `evaluation.py` lines 14-42.  Raising `ValueError` is
modelled as returning `Except.error`; the message string reproduces the
f-string of lines 33-35. -/
def evaluate (value guess min_value max_value : Int) :
    Except PyError Evaluation :=
  if value < min_value ∨ value > max_value then
    .error (.valueError
      s!"Value {value} is outside the allowed range [{min_value}, {max_value}]")
  else if guess = value then .ok .CORRECT
  else if guess > value then .ok .HIGH
  else .ok .LOW

/-- Python positional-call semantics for the function `evaluate`, which
declares exactly four required positional parameters (`evaluation.py`
line 14).  A call binds the supplied positional arguments in order; any
other arity raises `TypeError` before the function body runs.  This is
the semantics of the call expression at `game_loop.py` line 23, which
supplies only two arguments. -/
def callEvaluate (args : List Int) : Except PyError Evaluation :=
  match args with
  | [value, guess, min_value, max_value] => evaluate value guess min_value max_value
  | _ => .error .typeError

/-- How one run of `game_loop` ends: a normal `return` of a boolean, or an
uncaught exception propagating out. -/
inductive LoopOutcome where
  | returned (won : Bool)
  | raised (e : PyError)
deriving DecidableEq, Repr

/-- Observable behaviour of one `game_loop` run: how it ended, the lines
printed to stdout in order, and how many input lines were consumed. -/
structure LoopResult where
  outcome : LoopOutcome
  output : List String
  consumed : Nat
deriving DecidableEq, Repr

/-- The body of the `for _ in range(max_guesses)` loop of `game_loop.py`
lines 21-29, with `fuel` the number of remaining iterations, `inputs` the
remaining stdin lines (already parsed as integers), `out` the lines printed
so far and `n` the number of inputs consumed so far.  Each iteration reads
a guess, evaluates the call `evaluate(value, guess)` of line 23 — which
supplies two positional arguments — prints the result's `.value` and
returns `True` on `CORRECT`; an exception from any step propagates out
with the output printed up to that point. -/
def game_loop_go (value : Int) :
    Nat → List Int → List String → Nat → LoopResult
  | 0, _, out, n => ⟨.returned false, out, n⟩
  | fuel + 1, inputs, out, n =>
    match inputs with
    | [] => ⟨.raised .eofError, out, n⟩
    | guess :: rest =>
      match callEvaluate [value, guess] with
      | .error e => ⟨.raised e, out, n + 1⟩
      | .ok result =>
        let out2 := out ++ [result.value]
        if result = Evaluation.CORRECT then ⟨.returned true, out2, n + 1⟩
        else game_loop_go value fuel rest out2 (n + 1)

/-- `game_loop` from `game_loop.py` lines 6-29.  `range(max_guesses)` has
`max_guesses.toNat` elements (empty when `max_guesses <= 0`); falling off
the loop returns `False`. -/
def game_loop (value : Int) (max_guesses : Int) (inputs : List Int) :
    LoopResult :=
  game_loop_go value max_guesses.toNat inputs [] 0

/-! ## Theorems about `evaluate` -/

/-- C2: with the target inside the declared bounds, `evaluate` returns
`CORRECT` iff the guess equals the target, `HIGH` iff the guess exceeds it,
and `LOW` iff the guess is below it; trichotomy of the integers makes the
three outcomes mutually exclusive and exhaustive. -/
theorem evaluate_trichotomy (value guess min_value max_value : Int)
    (h1 : min_value ≤ value) (h2 : value ≤ max_value) :
    (evaluate value guess min_value max_value = .ok .CORRECT ↔ guess = value) ∧
    (evaluate value guess min_value max_value = .ok .HIGH ↔ guess > value) ∧
    (evaluate value guess min_value max_value = .ok .LOW ↔ guess < value) := by
  unfold evaluate
  have hrange : ¬(value < min_value ∨ value > max_value) := by omega
  rw [if_neg hrange]
  by_cases he : guess = value
  · subst he
    simp
  · rw [if_neg he]
    by_cases hg : guess > value
    · rw [if_pos hg]
      refine ⟨?_, ?_, ?_⟩ <;> simp <;> omega
    · rw [if_neg hg]
      refine ⟨?_, ?_, ?_⟩ <;> simp <;> omega

/-- Witness for C2 at target 42, guess 50, bounds [1, 100]. -/
theorem evaluate_trichotomy_witness :
    (evaluate 42 50 1 100 = .ok .CORRECT ↔ (50 : Int) = 42) ∧
    (evaluate 42 50 1 100 = .ok .HIGH ↔ (50 : Int) > 42) ∧
    (evaluate 42 50 1 100 = .ok .LOW ↔ (50 : Int) < 42) :=
  evaluate_trichotomy 42 50 1 100 (by decide) (by decide)

/-- C3: `evaluate` raises `ValueError` exactly when the target lies outside
`[min_value, max_value]`, and the message names the offending value and the
declared bounds; the error is the function's result (nothing inside
`evaluate` retries or recovers, so it propagates to the caller). -/
theorem evaluate_invalid_range (value guess min_value max_value : Int) :
    evaluate value guess min_value max_value =
      .error (.valueError
        s!"Value {value} is outside the allowed range [{min_value}, {max_value}]")
    ↔ (value < min_value ∨ value > max_value) := by
  unfold evaluate
  by_cases h : value < min_value ∨ value > max_value
  · simp [h]
  · rw [if_neg h]
    constructor
    · intro hc
      by_cases he : guess = value
      · rw [if_pos he] at hc
        exact absurd hc (by simp)
      · rw [if_neg he] at hc
        by_cases hg : guess > value
        · rw [if_pos hg] at hc
          exact absurd hc (by simp)
        · rw [if_neg hg] at hc
          exact absurd hc (by simp)
    · intro hc
      exact absurd hc h

/-- C8: `evaluate` validates only the target, never the guess: whenever the
target lies in `[min_value, max_value]`, the call succeeds for every guess —
including guesses outside the bounds — and returns the three-way comparison
of the guess against the target. -/
theorem evaluate_guess_never_validated (value guess min_value max_value : Int)
    (h1 : min_value ≤ value) (h2 : value ≤ max_value) :
    evaluate value guess min_value max_value =
      .ok (if guess = value then .CORRECT
        else if guess > value then .HIGH else .LOW) := by
  unfold evaluate
  rw [if_neg (by omega : ¬(value < min_value ∨ value > max_value))]
  by_cases he : guess = value
  · rw [if_pos he, if_pos he]
  · rw [if_neg he, if_neg he]
    by_cases hg : guess > value
    · rw [if_pos hg, if_pos hg]
    · rw [if_neg hg, if_neg hg]

/-- Witness for C8 with the guess 1000 far outside the bounds [1, 100]. -/
theorem evaluate_guess_never_validated_witness :
    (1 : Int) ≤ 50 ∧ (50 : Int) ≤ 100 ∧
      evaluate 50 1000 1 100 =
        .ok (if (1000 : Int) = 50 then .CORRECT
          else if (1000 : Int) > 50 then .HIGH else .LOW) :=
  ⟨by decide, by decide,
    evaluate_guess_never_validated 50 1000 1 100 (by decide) (by decide)⟩

/-- C9: `evaluate` is deterministic — two calls with identical arguments
yield identical results.  The embedding is a total Lean function, reflecting
that the Python body reads no mutable state and performs no effects. -/
theorem evaluate_deterministic (value guess min_value max_value : Int)
    (r1 r2 : Except PyError Evaluation)
    (h1 : evaluate value guess min_value max_value = r1)
    (h2 : evaluate value guess min_value max_value = r2) :
    r1 = r2 :=
  h1.symm.trans h2

/-- Witness for C9 at target 42, guess 10, bounds [1, 100]. -/
theorem evaluate_deterministic_witness :
    evaluate 42 10 1 100 = evaluate 42 10 1 100 :=
  evaluate_deterministic 42 10 1 100
    (evaluate 42 10 1 100) (evaluate 42 10 1 100) rfl rfl

/-! ## Theorems about `game_loop` -/

/-- C1: whenever at least one iteration runs (`max_guesses >= 1`) and a
first input line is available, `game_loop` consumes that line and then the
two-argument call `evaluate(value, guess)` at line 23 raises `TypeError`:
no outcome line is printed and the function never returns normally. -/
theorem game_loop_type_error (value max_guesses : Int) (inputs : List Int)
    (h1 : 1 ≤ max_guesses) (h2 : inputs ≠ []) :
    game_loop value max_guesses inputs =
      ⟨.raised .typeError, [], 1⟩ := by
  obtain ⟨g, rest, hin⟩ : ∃ g rest, inputs = g :: rest := by
    cases inputs with
    | nil => exact absurd rfl h2
    | cons g rest => exact ⟨g, rest, rfl⟩
  obtain ⟨k, hk⟩ : ∃ k, max_guesses.toNat = k + 1 := by
    have : 0 < max_guesses.toNat := by omega
    exact ⟨max_guesses.toNat - 1, by omega⟩
  rw [game_loop, hk, hin]
  rfl

/-- Witness for C1 at target 42, max_guesses 5, first input 10. -/
theorem game_loop_type_error_witness :
    (1 : Int) ≤ 5 ∧ ([10] : List Int) ≠ [] ∧
      game_loop 42 5 [10] = ⟨.raised .typeError, [], 1⟩ :=
  ⟨by decide, by decide, game_loop_type_error 42 5 [10] (by decide) (by decide)⟩

/-- C10: with `max_guesses <= 0`, `range(max_guesses)` is empty, so
`game_loop` returns `False` immediately, consuming no input and printing
nothing. -/
theorem game_loop_nonpositive_budget (value max_guesses : Int)
    (inputs : List Int) (h : max_guesses ≤ 0) :
    game_loop value max_guesses inputs = ⟨.returned false, [], 0⟩ := by
  rw [game_loop, (by omega : max_guesses.toNat = 0)]
  rfl

/-- Witness for C10 at target 42, max_guesses -3. -/
theorem game_loop_nonpositive_budget_witness :
    (-3 : Int) ≤ 0 ∧ game_loop 42 (-3) [10, 20] = ⟨.returned false, [], 0⟩ :=
  ⟨by decide, game_loop_nonpositive_budget 42 (-3) [10, 20] (by decide)⟩

/-- C4 (code bug): on target 42, max_guesses 5, inputs [10, 20, 42] the
spec (and the repository's own test `test_correct_guess_middle_try`)
demands output ["low", "low", "correct"], return `True` and 3 inputs
consumed; the code instead raises `TypeError` after the first input with
no output, because line 23 calls `evaluate` with two arguments. -/
theorem game_loop_c4_failing_input :
    game_loop 42 5 [10, 20, 42] = ⟨.raised .typeError, [], 1⟩ := by
  rfl

/-- C5 (code bug): on target 42, max_guesses 3, inputs [10, 20, 30] the
spec (and the test `test_max_guesses_reached_without_win`) demands output
["low", "low", "low"], return `False` and 3 inputs consumed; the code
instead raises `TypeError` after the first input with no output. -/
theorem game_loop_c5_failing_input :
    game_loop 42 3 [10, 20, 30] = ⟨.raised .typeError, [], 1⟩ := by
  rfl

/-- C6 (code bug): on target 42, max_guesses 5, first input equal to the
target the spec (and the test `test_correct_guess_first_try`) demands an
immediate successful return; the code never reaches a `CORRECT` outcome —
it raises `TypeError` on the first iteration. -/
theorem game_loop_c6_failing_input :
    game_loop 42 5 [42] = ⟨.raised .typeError, [], 1⟩ := by
  rfl

/-- C7 (code bug): on target 7, max_guesses 2, inputs [7] the spec demands
exactly the one line "correct"; the code prints nothing and raises
`TypeError`, so no outcome label is ever emitted. -/
theorem game_loop_c7_failing_input :
    game_loop 7 2 [7] = ⟨.raised .typeError, [], 1⟩ := by
  rfl

end HiLow
